import Mathlib

/-!
Shallow embedding of the ruuvi-terminal-client sources
(`src/main.rs`, `src/formatters/ruuvi_gateway.rs`,
`src/formatters/custom_ruuvi_api.rs`).

Modelling conventions:
* JSON values (`serde_json::Value`) are the inductive `Json` below; a JSON
  number is `Json.int n` when serde stores it as an integer (i64/u64) and
  `Json.float q` when it stores it as an f64.  `f64` payload values are
  modelled as rationals.
* Wall-clock instants (`chrono::DateTime<Utc>`) are modelled as epoch
  seconds (`Int`); `Utc::now()` calls inside a function become an explicit
  `now : Int` argument of its embedding.
* Chrono's `NaiveDateTime::from_timestamp_opt` and `to_rfc3339` are
  modelled by `from_timestamp_opt` / `to_rfc3339` below: validity is the
  timestamp range representable by chrono dates (years -262144..262143),
  and formatting uses the standard civil-from-days calendar algorithm.
* Fallible Rust functions returning `Result<_, Box<dyn Error>>` become
  `Except String _`.
-/

/-- Model of `serde_json::Value`. -/
inductive Json where
  | null
  | bool (b : Bool)
  | int (n : Int)
  | float (q : ℚ)
  | str (s : String)
  | arr (elems : List Json)
  | obj (fields : List (String × Json))

/-- Lookup of a key in a JSON object field list (first match). -/
def lookupField : List (String × Json) → String → Option Json
  | [], _ => none
  | (k, v) :: rest, key => if k = key then some v else lookupField rest key

/-- Model of `Value::get(key)`: `Some` only on objects that carry the key. -/
def Json.get (j : Json) (k : String) : Option Json :=
  match j with
  | .obj fields => lookupField fields k
  | _ => none

/-- Model of the `value["key"]` indexing operator, which yields `Null` on a
missing key or a non-object. -/
def Json.index (j : Json) (k : String) : Json :=
  (j.get k).getD .null

/-- Model of `Value::as_f64`: any JSON number converts. -/
def Json.as_f64 (j : Json) : Option ℚ :=
  match j with
  | .int n => some (n : ℚ)
  | .float q => some q
  | _ => none

/-- Model of `Value::as_i64`: only integer-backed numbers in i64 range. -/
def Json.as_i64 (j : Json) : Option Int :=
  match j with
  | .int n => if -(2 ^ 63) ≤ n ∧ n < 2 ^ 63 then some n else none
  | _ => none

/-- Model of `Value::is_object`. -/
def Json.is_object (j : Json) : Bool :=
  match j with
  | .obj _ => true
  | _ => false

/-- Model of `Value::as_object` (the field list, in order). -/
def Json.as_object (j : Json) : Option (List (String × Json)) :=
  match j with
  | .obj fields => some fields
  | _ => none

/-- The struct `Metric` of `main.rs` (f64 fields as ℚ, the i8 `trend` as
Int). -/
structure Metric where
  current : ℚ
  min : ℚ
  max : ℚ
  trend : Int
deriving Repr, DecidableEq

/-- The struct `Tag` of `main.rs` (u32 ids as Nat, `datetime` kept as the
string stored in the struct). -/
structure Tag where
  id : Nat
  tag_id : Nat
  datetime : String
  temperature : Metric
  humidity : Metric
  battery_low : Bool
  tag_name : String
deriving Repr, DecidableEq

/-- Smallest epoch-second value representable by a chrono naive datetime
(date -262144-01-01 at 00:00:00). -/
def chronoMinTimestamp : Int := -8334632851200

/-- Largest epoch-second value representable by a chrono naive datetime
(date 262143-12-31 at 23:59:59). -/
def chronoMaxTimestamp : Int := 8210298412799

/-- Model of `NaiveDateTime::from_timestamp_opt(ts, 0)`: succeeds exactly on
the representable range, and the resulting datetime is identified with its
epoch-second value. -/
def from_timestamp_opt (ts : Int) : Option Int :=
  if chronoMinTimestamp ≤ ts ∧ ts ≤ chronoMaxTimestamp then some ts else none

/-- Civil date (year, month, day) of a day count since 1970-01-01, by the
standard civil-from-days algorithm (all divisions on nonnegative operands
except the initial floor division). -/
def civilFromDays (z0 : Int) : Int × Int × Int :=
  let z := z0 + 719468
  let era := Int.fdiv z 146097
  let doe := z - era * 146097
  let yoe := (doe - doe / 1460 + doe / 36524 - doe / 146096) / 365
  let y := yoe + era * 400
  let doy := doe - (365 * yoe + yoe / 4 - yoe / 100)
  let mp := (5 * doy + 2) / 153
  let d := doy - (153 * mp + 2) / 5 + 1
  let m := mp + (if mp < 10 then 3 else -9)
  (y + (if m ≤ 2 then 1 else 0), m, d)

/-- Two-digit zero padding for date/time components. -/
def pad2 (n : Int) : String :=
  (if n < 10 then "0" else "") ++ toString n

/-- Model of `DateTime::<Utc>::from_utc(..).to_rfc3339()` on a valid
timestamp: the RFC 3339 text of the instant, with UTC offset `+00:00`. -/
def to_rfc3339 (ts : Int) : String :=
  let days := Int.fdiv ts 86400
  let sod := ts - days * 86400
  let ymd := civilFromDays days
  toString ymd.1 ++ "-" ++ pad2 ymd.2.1 ++ "-" ++ pad2 ymd.2.2 ++ "T" ++
    pad2 (sod / 3600) ++ ":" ++ pad2 ((sod % 3600) / 60) ++ ":" ++
    pad2 (sod % 60) ++ "+00:00"

/-! Gateway-history adapter (`src/formatters/ruuvi_gateway.rs`).  The
`Utc::now().timestamp()` read inside the function is surfaced as the
explicit argument `now`. -/

/-- Value of the `temperature` binding in `parse_ruuvi_gateway_format`:
`tag_data.get("temperature").and_then(as_f64).unwrap_or(0.0)`. -/
def gw_temperature (tag_data : Json) : ℚ :=
  ((tag_data.get "temperature").bind Json.as_f64).getD 0

/-- Value of the `humidity` binding in `parse_ruuvi_gateway_format`. -/
def gw_humidity (tag_data : Json) : ℚ :=
  ((tag_data.get "humidity").bind Json.as_f64).getD 0

/-- Value of the `voltage` binding (assumes 3.0 V if missing). -/
def gw_voltage (tag_data : Json) : ℚ :=
  ((tag_data.get "voltage").bind Json.as_f64).getD 3

/-- Value of the `timestamp` binding (fetch-time `now` if missing). -/
def gw_timestamp (tag_data : Json) (now : Int) : Int :=
  ((tag_data.get "timestamp").bind Json.as_i64).getD now

/-- Body of the per-entry loop in `parse_ruuvi_gateway_format`: builds one
`Tag` from a `(mac, tag_data)` entry; errs exactly when
`from_timestamp_opt` fails (the `.ok_or("Invalid timestamp")?` line). -/
def parseEntry (now : Int) (mac : String) (tag_data : Json) :
    Except String Tag :=
  let temperature := gw_temperature tag_data
  let humidity := gw_humidity tag_data
  let voltage := gw_voltage tag_data
  let timestamp := gw_timestamp tag_data now
  let battery_low := decide (voltage ≤ 2)
  match from_timestamp_opt timestamp with
  | none => .error "Invalid timestamp"
  | some ts =>
      .ok { id := 0
            tag_id := 0
            datetime := to_rfc3339 ts
            temperature :=
              { current := temperature, min := temperature,
                max := temperature, trend := 0 }
            humidity :=
              { current := humidity, min := humidity,
                max := humidity, trend := 0 }
            battery_low := battery_low
            tag_name := mac }

/-- The entry loop of `parse_ruuvi_gateway_format`: entries in order, the
`?` aborts the whole run on the first entry error. -/
def parseEntries (now : Int) : List (String × Json) → Except String (List Tag)
  | [] => .ok []
  | (mac, tag_data) :: rest =>
      match parseEntry now mac tag_data with
      | .error e => .error e
      | .ok tag =>
          match parseEntries now rest with
          | .error e => .error e
          | .ok tags => .ok (tag :: tags)

/-- Model of `parse_ruuvi_gateway_format` (ruuvi_gateway.rs lines 1-47). -/
def parse_ruuvi_gateway_format (now : Int) (value : Json) :
    Except String (List Tag) :=
  let tags_obj := (value.index "data").index "tags"
  match tags_obj.as_object with
  | none => .error "Expected 'tags' to be an object"
  | some entries => parseEntries now entries

/-! Passthrough adapter (`src/formatters/custom_ruuvi_api.rs`): serde's
derived `Deserialize` for `Vec<Tag>` applied to the JSON value. -/

/-- Serde deserialization of an `f64` field value. -/
def deserialize_f64 (j : Json) : Except String ℚ :=
  match j.as_f64 with
  | some q => .ok q
  | none => .error "invalid type: expected f64"

/-- Serde deserialization of a `u32` field value (integer in range). -/
def deserialize_u32 (j : Json) : Except String Nat :=
  match j with
  | .int n => if 0 ≤ n ∧ n < 2 ^ 32 then .ok n.toNat
              else .error "invalid value: out of range for u32"
  | _ => .error "invalid type: expected u32"

/-- Serde deserialization of an `i8` field value (integer in range). -/
def deserialize_i8 (j : Json) : Except String Int :=
  match j with
  | .int n => if -128 ≤ n ∧ n ≤ 127 then .ok n
              else .error "invalid value: out of range for i8"
  | _ => .error "invalid type: expected i8"

/-- Serde deserialization of a `bool` field value. -/
def deserialize_bool (j : Json) : Except String Bool :=
  match j with
  | .bool b => .ok b
  | _ => .error "invalid type: expected bool"

/-- Serde deserialization of a `String` field value. -/
def deserialize_string (j : Json) : Except String String :=
  match j with
  | .str s => .ok s
  | _ => .error "invalid type: expected string"

/-- Lookup of a required struct field in a JSON object. -/
def requireField (fields : List (String × Json)) (k : String) :
    Except String Json :=
  match lookupField fields k with
  | some v => .ok v
  | none => .error ("missing field " ++ k)

/-- Serde's derived `Deserialize` for `Metric`: a JSON object carrying
`current`, `min`, `max` (f64) and `trend` (i8); unknown fields ignored. -/
def deserialize_metric (j : Json) : Except String Metric :=
  match j with
  | .obj fields => do
      let current ← deserialize_f64 (← requireField fields "current")
      let mn ← deserialize_f64 (← requireField fields "min")
      let mx ← deserialize_f64 (← requireField fields "max")
      let trend ← deserialize_i8 (← requireField fields "trend")
      .ok { current := current, min := mn, max := mx, trend := trend }
  | _ => .error "invalid type: expected Metric object"

/-- Serde's derived `Deserialize` for `Tag`. -/
def deserialize_tag (j : Json) : Except String Tag :=
  match j with
  | .obj fields => do
      let id ← deserialize_u32 (← requireField fields "id")
      let tag_id ← deserialize_u32 (← requireField fields "tag_id")
      let datetime ← deserialize_string (← requireField fields "datetime")
      let temperature ← deserialize_metric (← requireField fields "temperature")
      let humidity ← deserialize_metric (← requireField fields "humidity")
      let battery_low ← deserialize_bool (← requireField fields "battery_low")
      let tag_name ← deserialize_string (← requireField fields "tag_name")
      .ok { id := id, tag_id := tag_id, datetime := datetime,
            temperature := temperature, humidity := humidity,
            battery_low := battery_low, tag_name := tag_name }
  | _ => .error "invalid type: expected Tag object"

/-- Element-wise deserialization of a JSON array into `Vec<Tag>`. -/
def deserializeTags : List Json → Except String (List Tag)
  | [] => .ok []
  | j :: rest => do
      let tag ← deserialize_tag j
      let tags ← deserializeTags rest
      .ok (tag :: tags)

/-- Model of `parse_custom_ruuvi_api_format` (custom_ruuvi_api.rs):
`serde_json::from_value::<Vec<Tag>>(value)`. -/
def parse_custom_ruuvi_api_format (value : Json) : Except String (List Tag) :=
  match value with
  | .arr elems => deserializeTags elems
  | _ => .error "invalid type: expected array of Tag"

instance {ε α : Type} [DecidableEq ε] [DecidableEq α] :
    DecidableEq (Except ε α) := fun a b =>
  match a, b with
  | .error e, .error f =>
      if h : e = f then isTrue (by rw [h])
      else isFalse (fun hh => by cases hh; exact h rfl)
  | .ok x, .ok y =>
      if h : x = y then isTrue (by rw [h])
      else isFalse (fun hh => by cases hh; exact h rfl)
  | .error _, .ok _ => isFalse (fun hh => Except.noConfusion hh)
  | .ok _, .error _ => isFalse (fun hh => Except.noConfusion hh)

/-! Adapter dispatcher and scheduler (`src/main.rs`). -/

/-- The enum `BackendFormat` of `main.rs`. -/
inductive BackendFormat where
  | RuuviGatewayHistory
  | CustomRuuviApi
deriving Repr, DecidableEq

/-- Model of Rust `str::to_lowercase` restricted to ASCII letters (the
identifiers the dispatcher compares against are ASCII, where Unicode and
ASCII lowercasing agree). -/
def ascii_to_lowercase (s : String) : String :=
  String.mk (s.data.map fun c =>
    if c.toNat ≥ 65 ∧ c.toNat ≤ 90 then Char.ofNat (c.toNat + 32) else c)

/-- The `BACKEND_FORMAT` match in `load_config` (main.rs lines 167-173):
the lowercased identifier `"ruuvi-gateway-history"` selects the gateway
adapter; `"custom"` and every other value select the passthrough
(custom-API) adapter. -/
def select_backend_format (s : String) : BackendFormat :=
  if ascii_to_lowercase s = "ruuvi-gateway-history" then .RuuviGatewayHistory
  else .CustomRuuviApi

/-- Dispatch inside `fetch_data` (main.rs lines 53-56): the adapter applied
to the decoded JSON body.  The gateway branch takes the fetch-time clock
reading `now` that its `Utc::now()` fallback uses. -/
def fetch_parse (backend_format : BackendFormat) (now : Int) (data : Json) :
    Except String (List Tag) :=
  match backend_format with
  | .RuuviGatewayHistory => parse_ruuvi_gateway_format now data
  | .CustomRuuviApi => parse_custom_ruuvi_api_format data

/-- Mutable state of the main loop (main.rs lines 196-198): `last_refresh`
as epoch seconds, `data`, and `network_error`. -/
structure SchedulerState where
  last_refresh : Int
  data : List Tag
  network_error : Bool
deriving Repr, DecidableEq

/-- The refresh-due test of the main loop (main.rs line 221):
`(now - last_refresh).num_seconds() >= 60`. -/
def fetch_due (s : SchedulerState) (now : Int) : Bool :=
  decide (now - s.last_refresh ≥ 60)

/-- One iteration of the main loop (main.rs lines 219-234) up to the render
call, with the environment supplied as the clock reading `now` and the
result `fetch` of `fetch_data` when one is attempted.  Returns the new
state; the arguments handed to `render` on this tick are the new state's
`data` and `network_error`. -/
def scheduler_step (s : SchedulerState) (now : Int)
    (fetch : Except String (List Tag)) : SchedulerState :=
  if fetch_due s now then
    match fetch with
    | .ok new_data =>
        { last_refresh := now, data := new_data, network_error := false }
    | .error _ =>
        { s with network_error := true }
  else s

/-- Arguments `(data, network_error)` that the loop passes to `render`
(main.rs line 234) on the tick described by `scheduler_step`. -/
def render_args (s : SchedulerState) (now : Int)
    (fetch : Except String (List Tag)) : List Tag × Bool :=
  let s2 := scheduler_step s now fetch
  (s2.data, s2.network_error)

/-! Derived display fields (`src/main.rs`). -/

/-- The function `trend_arrow` (main.rs lines 126-132). -/
def trend_arrow (trend : Int) : String :=
  if trend = 1 then "▴"
  else if trend = -1 then "▾"
  else "▸"

/-- The function `format_time_ago` (main.rs lines 137-158).  Its input
string's `parse::<DateTime<Utc>>()` outcome is abstracted to
`parsed : Option Int` (epoch seconds on success), and the `Utc::now()` read
inside the function body is surfaced as the explicit argument `now`. -/
def format_time_ago (parsed : Option Int) (now : Int) : String :=
  match parsed with
  | none => "unknown"
  | some t =>
      let seconds := now - t
      if seconds < 60 then toString seconds ++ " seconds ago"
      else if seconds < 3600 then toString (seconds / 60) ++ " minutes ago"
      else if seconds < 86400 then toString (seconds / 3600) ++ " hours ago"
      else toString (seconds / 86400) ++ " days ago"

/-- Alert outcomes the renderer can produce.  The `Tag` struct and the
body of `render` (main.rs lines 21-30 and 62-121) carry no
unreachable/offline flag, so the only alert condition the code can
classify is `battery_low`. -/
inductive Alert where
  | none
  | batteryLow
deriving Repr, DecidableEq

/-- Alert classification implemented by `render` (main.rs lines 71-77):
a reading is in alert state exactly when `battery_low` is set. -/
def classify_alert (tag : Tag) : Alert :=
  if tag.battery_low then .batteryLow else .none

/-- The alert label `render` prints for a reading (main.rs lines 71-77):
`"Battery low"` when `battery_low`, nothing otherwise. -/
def alert_label (tag : Tag) : Option String :=
  if tag.battery_low then some "Battery low" else none

/-! Concrete payloads and readings used by the theorems below. -/

/-- A well-formed gateway device entry (the §8 scenario of the spec with
integer-valued measurements). -/
def gwGoodEntry : Json :=
  .obj [("temperature", .float 21), ("humidity", .float 40),
        ("voltage", .float 2), ("timestamp", .int 1700000000)]

/-- A gateway payload whose `data.tags` object has the single well-formed
entry `gwGoodEntry` under the key `"AA:BB"`. -/
def gwGoodPayload : Json :=
  .obj [("data", .obj [("tags", .obj [("AA:BB", gwGoodEntry)])])]

/-- The canonical reading that `gwGoodPayload` normalizes to. -/
def gwGoodTag : Tag :=
  { id := 0, tag_id := 0, datetime := "2023-11-14T22:13:20+00:00",
    temperature := { current := 21, min := 21, max := 21, trend := 0 },
    humidity := { current := 40, min := 40, max := 40, trend := 0 },
    battery_low := true, tag_name := "AA:BB" }

/-- A corrupt gateway device entry: its `timestamp` is an i64 outside the
range chrono can represent as a datetime. -/
def gwBadTsEntry : Json := .obj [("timestamp", .int 9300000000000)]

/-- A gateway payload whose `data.tags` object holds one well-formed entry
and one corrupt entry. -/
def gwMixedPayload : Json :=
  .obj [("data", .obj [("tags",
    .obj [("GOOD", gwGoodEntry), ("BAD", gwBadTsEntry)])])]

/-- A gateway device entry with no fields at all; in particular its
`timestamp` is missing, so normalization falls back to fetch-time now. -/
def gwNoTsEntry : Json := .obj []

/-- A gateway payload whose single device entry carries no timestamp. -/
def gwNoTsPayload : Json :=
  .obj [("data", .obj [("tags", .obj [("AA", gwNoTsEntry)])])]

/-- A gateway device entry whose `temperature` is non-numeric and whose
`humidity` is absent, with a valid timestamp. -/
def gwNoMetricEntry : Json :=
  .obj [("temperature", .str "oops"), ("timestamp", .int 100)]

/-- A JSON `Tag` object, field-for-field valid for the passthrough decode,
whose temperature bounds are inconsistent (`min = 10 > current = 5,
max = 0`). -/
def boundsViolatingTagJson : Json :=
  .obj [("id", .int 1), ("tag_id", .int 2), ("datetime", .str "x"),
        ("temperature", .obj [("current", .int 5), ("min", .int 10),
                              ("max", .int 0), ("trend", .int 0)]),
        ("humidity", .obj [("current", .int 40), ("min", .int 40),
                           ("max", .int 40), ("trend", .int 0)]),
        ("battery_low", .bool false), ("tag_name", .str "T")]

/-- The reading the passthrough adapter decodes `boundsViolatingTagJson`
into. -/
def boundsViolatingTag : Tag :=
  { id := 1, tag_id := 2, datetime := "x",
    temperature := { current := 5, min := 10, max := 0, trend := 0 },
    humidity := { current := 40, min := 40, max := 40, trend := 0 },
    battery_low := false, tag_name := "T" }

/-! Helper lemmas shared by several claim theorems. -/

/-- Shape of a successful per-entry parse: the produced reading carries the
entry's extracted fields, with both metrics collapsed to
`min = max = current` and `trend = 0`. -/
theorem parseEntry_eq_of_ts (now : Int) (mac : String) (td : Json) (ts : Int)
    (h : from_timestamp_opt (gw_timestamp td now) = some ts) :
    parseEntry now mac td = .ok
      { id := 0, tag_id := 0, datetime := to_rfc3339 ts,
        temperature := { current := gw_temperature td, min := gw_temperature td,
                         max := gw_temperature td, trend := 0 },
        humidity := { current := gw_humidity td, min := gw_humidity td,
                      max := gw_humidity td, trend := 0 },
        battery_low := decide (gw_voltage td ≤ 2), tag_name := mac } := by
  simp only [parseEntry, h]

/-- A successful per-entry parse yields metrics with
`min = max = current` and `trend = 0` for both quantities. -/
theorem parseEntry_metric_shape (now : Int) (mac : String) (td : Json)
    (tag : Tag) (h : parseEntry now mac td = .ok tag) :
    tag.temperature.min = tag.temperature.current ∧
    tag.temperature.max = tag.temperature.current ∧
    tag.humidity.min = tag.humidity.current ∧
    tag.humidity.max = tag.humidity.current ∧
    tag.temperature.trend = 0 ∧ tag.humidity.trend = 0 := by
  cases hts : from_timestamp_opt (gw_timestamp td now) with
  | none =>
      simp only [parseEntry, hts] at h
      exact Except.noConfusion h
  | some ts =>
      simp only [parseEntry, hts] at h
      cases h
      simp

/-- Every reading in a successful run of the entry loop comes from a
successful `parseEntry` on some entry. -/
theorem parseEntries_mem (now : Int) (entries : List (String × Json))
    (tags : List Tag) (h : parseEntries now entries = .ok tags) :
    ∀ tag ∈ tags, ∃ mac td, parseEntry now mac td = .ok tag := by
  induction entries generalizing tags with
  | nil =>
      unfold parseEntries at h
      cases h
      intro tag htag
      cases htag
  | cons e rest ih =>
      unfold parseEntries at h
      cases hp : parseEntry now e.1 e.2 with
      | error msg =>
          rw [hp] at h
          exact Except.noConfusion h
      | ok tag0 =>
          rw [hp] at h
          cases hrest : parseEntries now rest with
          | error msg =>
              rw [hrest] at h
              exact Except.noConfusion h
          | ok tags0 =>
              rw [hrest] at h
              cases h
              intro tag htag
              rcases List.mem_cons.mp htag with hfst | hmem
              · exact ⟨e.1, e.2, by rw [hp, hfst]⟩
              · exact ih tags0 hrest tag hmem


/-- When every entry has a timestamp that chrono accepts, the entry loop
succeeds and produces exactly one reading per entry. -/
theorem parseEntries_ok_of_valid_ts (now : Int)
    (entries : List (String × Json))
    (hts : ∀ e ∈ entries, (from_timestamp_opt (gw_timestamp e.2 now)).isSome = true) :
    ∃ tags, parseEntries now entries = .ok tags ∧
      tags.length = entries.length := by
  induction entries with
  | nil => exact ⟨[], rfl, rfl⟩
  | cons e rest ih =>
      obtain ⟨tags, htags, hlen⟩ :=
        ih (fun x hx => hts x (List.mem_cons_of_mem _ hx))
      obtain ⟨ts, hsome⟩ :=
        Option.isSome_iff_exists.mp (hts e (List.mem_cons_self _ _))
      have hstep : parseEntries now (e :: rest) =
          .ok (({ id := 0, tag_id := 0, datetime := to_rfc3339 ts,
                  temperature := { current := gw_temperature e.2,
                                   min := gw_temperature e.2,
                                   max := gw_temperature e.2, trend := 0 },
                  humidity := { current := gw_humidity e.2,
                                min := gw_humidity e.2,
                                max := gw_humidity e.2, trend := 0 },
                  battery_low := decide (gw_voltage e.2 ≤ 2),
                  tag_name := e.1 } : Tag) :: tags) := by
        unfold parseEntries
        rw [parseEntry_eq_of_ts now e.1 e.2 ts hsome, htags]
      exact ⟨_, hstep, by simp [hlen]⟩

/-- A per-entry parse does not depend on the fetch-time clock when the
entry carries an integer timestamp field. -/
theorem parseEntry_now_indep (now now2 : Int) (mac : String) (td : Json)
    (h : ((td.get "timestamp").bind Json.as_i64).isSome = true) :
    parseEntry now mac td = parseEntry now2 mac td := by
  obtain ⟨ts, hts⟩ := Option.isSome_iff_exists.mp h
  have h1 : gw_timestamp td now = ts := by simp [gw_timestamp, hts]
  have h2 : gw_timestamp td now2 = ts := by simp [gw_timestamp, hts]
  simp only [parseEntry, h1, h2]

/-- The entry loop does not depend on the fetch-time clock when every
entry carries an integer timestamp field. -/
theorem parseEntries_now_indep (now now2 : Int)
    (entries : List (String × Json))
    (h : ∀ e ∈ entries, ((e.2.get "timestamp").bind Json.as_i64).isSome = true) :
    parseEntries now entries = parseEntries now2 entries := by
  induction entries with
  | nil => rfl
  | cons e rest ih =>
      unfold parseEntries
      rw [parseEntry_now_indep now now2 e.1 e.2 (h e (List.mem_cons_self _ _)),
        ih (fun x hx => h x (List.mem_cons_of_mem _ hx))]

/-- Shifting both the observation instant and the clock leaves the
relative-time text depending only on the elapsed seconds. -/
theorem format_time_ago_shift (t k : Int) :
    format_time_ago (some (t - k)) t = format_time_ago (some 0) k := by
  simp [format_time_ago]

/-! Claim theorems. -/

/-- C1 counterexample.  The claim says a failed fetch sets `last_refresh`
to the current time so that consecutive fetch attempts are always at least
60 seconds apart.  On the code: with `last_refresh = 0`, a fetch is due at
`now = 60` and fails; the resulting state still has `last_refresh = 0`
(not `60` as claimed), so on the very next 1-second tick (`now = 61`) a
further fetch attempt is already due — two attempts one second apart. -/
theorem C1_counterexample :
    fetch_due { last_refresh := 0, data := [], network_error := false } 60 = true ∧
    scheduler_step { last_refresh := 0, data := [], network_error := false } 60
        (.error "connection refused") =
      { last_refresh := 0, data := [], network_error := true } ∧
    fetch_due { last_refresh := 0, data := [], network_error := true } 61 = true := by
  decide

/-- C1 amended: when a due fetch attempt fails, the scheduler leaves
`last_refresh` unchanged, so a further fetch attempt is already due on the
next 1-second tick; failed fetches are retried at the tick cadence, not at
the 60-second refresh interval. -/
theorem C1_amended_failure_keeps_last_refresh (s : SchedulerState)
    (now : Int) (e : String) (h : fetch_due s now = true) :
    (scheduler_step s now (.error e)).last_refresh = s.last_refresh ∧
    fetch_due (scheduler_step s now (.error e)) (now + 1) = true := by
  have hdue : now - s.last_refresh ≥ 60 := by
    simpa [fetch_due] using h
  have hstep : scheduler_step s now (.error e) =
      { s with network_error := true } := by
    simp [scheduler_step, h]
  rw [hstep]
  refine ⟨rfl, ?_⟩
  simp only [fetch_due, decide_eq_true_eq]
  omega

/-- C1 amended witness at the concrete failing run of the counterexample
state. -/
theorem C1_amended_witness :
    fetch_due { last_refresh := 0, data := [], network_error := false } 60 = true ∧
    ((scheduler_step { last_refresh := 0, data := [], network_error := false } 60
        (.error "connection refused")).last_refresh =
      SchedulerState.last_refresh { last_refresh := 0, data := [], network_error := false } ∧
     fetch_due (scheduler_step { last_refresh := 0, data := [], network_error := false } 60
        (.error "connection refused")) (60 + 1) = true) :=
  ⟨by decide,
   C1_amended_failure_keeps_last_refresh
     { last_refresh := 0, data := [], network_error := false } 60
     "connection refused" (by decide)⟩

/-- C3: when a due fetch attempt fails, the stored snapshot is left
unchanged and the render call of that tick receives the prior snapshot
together with `network_error = true`. -/
theorem C3_failure_renders_prior_snapshot (s : SchedulerState) (now : Int)
    (e : String) (h : fetch_due s now = true) :
    (scheduler_step s now (.error e)).data = s.data ∧
    render_args s now (.error e) = (s.data, true) := by
  constructor
  · simp [scheduler_step, h]
  · simp [render_args, scheduler_step, h]

/-- C3 witness: a state holding the previously successful snapshot
`[gwGoodTag]` goes through a failing fetch and renders that same snapshot
with the fault flag set. -/
theorem C3_witness :
    fetch_due { last_refresh := 100, data := [gwGoodTag], network_error := false } 160 = true ∧
    ((scheduler_step { last_refresh := 100, data := [gwGoodTag], network_error := false } 160
        (.error "http 500")).data =
      SchedulerState.data { last_refresh := 100, data := [gwGoodTag], network_error := false } ∧
     render_args { last_refresh := 100, data := [gwGoodTag], network_error := false } 160
        (.error "http 500") =
      (SchedulerState.data { last_refresh := 100, data := [gwGoodTag], network_error := false }, true)) :=
  ⟨by decide,
   C3_failure_renders_prior_snapshot
     { last_refresh := 100, data := [gwGoodTag], network_error := false } 160
     "http 500" (by decide)⟩

/-- C4 counterexample.  The claim says the identifier `"gateway-history"`
selects the gateway-history adapter.  On the code the only identifier that
selects it is `"ruuvi-gateway-history"`; `"gateway-history"` falls through
to the default arm and selects the passthrough (custom-API) adapter. -/
theorem C4_counterexample :
    select_backend_format "gateway-history" = .CustomRuuviApi ∧
    BackendFormat.CustomRuuviApi ≠ BackendFormat.RuuviGatewayHistory := by
  decide

/-- C4 amended: the dispatcher maps the (case-insensitive) identifier
`"ruuvi-gateway-history"` to the gateway-history adapter and every other
identifier — including `"gateway-history"` and `"nonsense"` — to the
passthrough (custom-API) adapter as the default fallback. -/
theorem C4_amended_dispatcher (s : String)
    (h : ascii_to_lowercase s ≠ "ruuvi-gateway-history") :
    select_backend_format "ruuvi-gateway-history" = .RuuviGatewayHistory ∧
    select_backend_format s = .CustomRuuviApi := by
  exact ⟨by decide, by simp [select_backend_format, h]⟩

/-- C4 amended witness at the unrecognized identifier `"nonsense"`. -/
theorem C4_amended_witness :
    ascii_to_lowercase "nonsense" ≠ "ruuvi-gateway-history" ∧
    (select_backend_format "ruuvi-gateway-history" = .RuuviGatewayHistory ∧
     select_backend_format "nonsense" = .CustomRuuviApi) :=
  ⟨by decide, C4_amended_dispatcher "nonsense" (by decide)⟩

/-- C8 counterexample.  The claim says classification yields one of None,
BatteryLow or Unreachable with Unreachable dominating BatteryLow.  The
`Tag` struct has no unreachable flag at all, so no reading with
"both unreachable and battery_low true" is even representable; on the
nearest representable reading — `battery_low = true` — the renderer
classifies and labels BatteryLow, which the claim says must never be shown
for such a device, and no outcome Unreachable exists in the code. -/
theorem C8_counterexample :
    classify_alert gwGoodTag = .batteryLow ∧
    alert_label gwGoodTag = some "Battery low" := by
  decide

/-- C8 amended: alert classification of a reading yields exactly one of
None or BatteryLow (the canonical model has no unreachable flag), it is
BatteryLow exactly when `battery_low` is set, and the single displayed
label is `"Battery low"` exactly in that case. -/
theorem C8_amended_classification (tag : Tag) :
    (classify_alert tag = .none ∨ classify_alert tag = .batteryLow) ∧
    (classify_alert tag = .batteryLow ↔ tag.battery_low = true) ∧
    (alert_label tag = some "Battery low" ↔ tag.battery_low = true) := by
  by_cases h : tag.battery_low <;>
    simp [classify_alert, alert_label, h]

/-- C6 counterexample.  The claim says the derived-field functions return
identical outputs for identical inputs, which requires `format_time_ago`
to take "now" as an explicit parameter.  In the code `format_time_ago`
reads `Utc::now()` internally: for the same input datetime (parsing to
epoch second 0), a call when the internal clock reads 0 and a call when it
reads 60 return different strings. -/
theorem C6_counterexample :
    format_time_ago (some 0) 0 = "0 seconds ago" ∧
    format_time_ago (some 0) 60 = "1 minutes ago" ∧
    format_time_ago (some 0) 0 ≠ format_time_ago (some 0) 60 := by
  decide

/-- C6 amended: `trend_arrow` is total (always one of the three glyphs)
and deterministic in its input; `format_time_ago` is total (always
"unknown" or one of the four bucket strings) and deterministic in the pair
of its input datetime and the internally read wall-clock value — but not
in the datetime input alone. -/
theorem C6_amended_derived_fields_total (t : Int) (d : Option Int)
    (now : Int) :
    (trend_arrow t = "▴" ∨ trend_arrow t = "▾" ∨ trend_arrow t = "▸") ∧
    (format_time_ago d now = "unknown" ∨
      ∃ n : Int,
        format_time_ago d now = toString n ++ " seconds ago" ∨
        format_time_ago d now = toString n ++ " minutes ago" ∨
        format_time_ago d now = toString n ++ " hours ago" ∨
        format_time_ago d now = toString n ++ " days ago") ∧
    format_time_ago d now = format_time_ago d now := by
  refine ⟨?_, ?_, rfl⟩
  · by_cases h1 : t = 1
    · exact Or.inl (by simp [trend_arrow, h1])
    · by_cases h2 : t = -1
      · exact Or.inr (Or.inl (by simp [trend_arrow, h1, h2]))
      · exact Or.inr (Or.inr (by simp [trend_arrow, h1, h2]))
  · cases d with
    | none => exact Or.inl rfl
    | some x =>
        refine Or.inr ?_
        by_cases h1 : now - x < 60
        · exact ⟨now - x, Or.inl (by simp [format_time_ago, h1])⟩
        · by_cases h2 : now - x < 3600
          · exact ⟨(now - x) / 60,
              Or.inr (Or.inl (by simp [format_time_ago, h1, h2]))⟩
          · by_cases h3 : now - x < 86400
            · exact ⟨(now - x) / 3600,
                Or.inr (Or.inr (Or.inl (by simp [format_time_ago, h1, h2, h3])))⟩
            · exact ⟨(now - x) / 86400,
                Or.inr (Or.inr (Or.inr (by simp [format_time_ago, h1, h2, h3])))⟩

/-- C7: for a parsable observation instant `t` and a clock reading
`now ≥ t`, the relative-time text buckets the elapsed seconds exactly as
specified (with floor division on the nonnegative elapsed count); an
unparsable datetime yields the literal "unknown"; and the three concrete
spec examples hold. -/
theorem C7_relative_time_buckets (t now : Int) (h : t ≤ now) :
    0 ≤ now - t ∧
    (now - t < 60 →
      format_time_ago (some t) now = toString (now - t) ++ " seconds ago") ∧
    (60 ≤ now - t ∧ now - t < 3600 →
      format_time_ago (some t) now = toString ((now - t) / 60) ++ " minutes ago") ∧
    (3600 ≤ now - t ∧ now - t < 86400 →
      format_time_ago (some t) now = toString ((now - t) / 3600) ++ " hours ago") ∧
    (86400 ≤ now - t →
      format_time_ago (some t) now = toString ((now - t) / 86400) ++ " days ago") ∧
    format_time_ago none now = "unknown" ∧
    format_time_ago (some t) t = "0 seconds ago" ∧
    format_time_ago (some (t - 90)) t = "1 minutes ago" ∧
    format_time_ago (some (t - 90000)) t = "1 days ago" := by
  refine ⟨by omega, ?_, ?_, ?_, ?_, rfl, ?_, ?_, ?_⟩
  · intro h1
    simp [format_time_ago, h1]
  · rintro ⟨h1, h2⟩
    have hn : ¬ (now - t < 60) := by omega
    simp [format_time_ago, hn, h2]
  · rintro ⟨h1, h2⟩
    have hn1 : ¬ (now - t < 60) := by omega
    have hn2 : ¬ (now - t < 3600) := by omega
    simp [format_time_ago, hn1, hn2, h2]
  · intro h1
    have hn1 : ¬ (now - t < 60) := by omega
    have hn2 : ¬ (now - t < 3600) := by omega
    have hn3 : ¬ (now - t < 86400) := by omega
    simp [format_time_ago, hn1, hn2, hn3]
  · have := format_time_ago_shift t 0
    rw [sub_zero] at this
    rw [this]
    decide
  · rw [format_time_ago_shift t 90]
    decide
  · rw [format_time_ago_shift t 90000]
    decide

/-- C7 witness at `t = 0`, `now = 90`. -/
theorem C7_witness :
    (0 : Int) ≤ 90 ∧
    ((0 : Int) ≤ 90 - 0 ∧
      ((90 : Int) - 0 < 60 →
        format_time_ago (some 0) 90 = toString ((90 : Int) - 0) ++ " seconds ago") ∧
      (60 ≤ (90 : Int) - 0 ∧ (90 : Int) - 0 < 3600 →
        format_time_ago (some 0) 90 = toString (((90 : Int) - 0) / 60) ++ " minutes ago") ∧
      (3600 ≤ (90 : Int) - 0 ∧ (90 : Int) - 0 < 86400 →
        format_time_ago (some 0) 90 = toString (((90 : Int) - 0) / 3600) ++ " hours ago") ∧
      (86400 ≤ (90 : Int) - 0 →
        format_time_ago (some 0) 90 = toString (((90 : Int) - 0) / 86400) ++ " days ago") ∧
      format_time_ago none 90 = "unknown" ∧
      format_time_ago (some 0) 0 = "0 seconds ago" ∧
      format_time_ago (some ((0 : Int) - 90)) 0 = "1 minutes ago" ∧
      format_time_ago (some ((0 : Int) - 90000)) 0 = "1 days ago") :=
  ⟨by decide, C7_relative_time_buckets 0 90 (by decide)⟩

/-- C2 counterexample.  The claim says a malformed individual device entry
is skipped while the rest of a valid batch still parses to Ok.  On the
code: `gwMixedPayload` has a valid top-level `data.tags` object with one
well-formed entry and one entry whose `timestamp` integer is outside the
range chrono accepts; the adapter returns an error for the whole batch
instead of skipping the corrupt entry. -/
theorem C2_counterexample :
    ((gwMixedPayload.index "data").index "tags").is_object = true ∧
    parse_ruuvi_gateway_format 0 gwMixedPayload = .error "Invalid timestamp" := by
  decide

/-- C2 amended: when the top-level `data.tags` mapping is a valid object
no entry is ever skipped — the adapter returns Ok with exactly one reading
per entry provided every entry's effective timestamp (its integer
`timestamp` field, or the fetch-time fallback) is representable by chrono;
malformed `temperature`, `humidity` or `voltage` fields never abort the
batch (they default per-field), but an entry whose effective timestamp is
out of chrono's range makes the whole parse return an error. -/
theorem C2_amended_whole_batch (now : Int) (p : Json)
    (entries : List (String × Json))
    (hobj : ((p.index "data").index "tags").as_object = some entries)
    (hts : ∀ e ∈ entries,
      (from_timestamp_opt (gw_timestamp e.2 now)).isSome = true) :
    ∃ tags, parse_ruuvi_gateway_format now p = .ok tags ∧
      tags.length = entries.length := by
  obtain ⟨tags, htags, hlen⟩ := parseEntries_ok_of_valid_ts now entries hts
  refine ⟨tags, ?_, hlen⟩
  simp only [parse_ruuvi_gateway_format, hobj]
  exact htags

/-- C2 amended witness at the singleton good payload. -/
theorem C2_amended_witness :
    ((gwGoodPayload.index "data").index "tags").as_object =
      some [("AA:BB", gwGoodEntry)] ∧
    (∀ e ∈ [("AA:BB", gwGoodEntry)],
      (from_timestamp_opt (gw_timestamp e.2 0)).isSome = true) ∧
    ∃ tags, parse_ruuvi_gateway_format 0 gwGoodPayload = .ok tags ∧
      tags.length = ([("AA:BB", gwGoodEntry)] : List (String × Json)).length :=
  ⟨rfl, by decide,
   C2_amended_whole_batch 0 gwGoodPayload [("AA:BB", gwGoodEntry)]
     rfl (by decide)⟩

/-- C5 counterexample.  The claim says two runs of the gateway adapter on
the identical payload — including one with a missing timestamp field —
produce identical readings.  On the code the missing-timestamp fallback is
an internal `Utc::now()` read, not a parameter of the raw payload: the
same payload `gwNoTsPayload` is accepted by runs at clock readings 0 and
1, and the two runs produce different snapshots (different `datetime`). -/
theorem C5_counterexample :
    (parse_ruuvi_gateway_format 0 gwNoTsPayload).isOk = true ∧
    (parse_ruuvi_gateway_format 1 gwNoTsPayload).isOk = true ∧
    parse_ruuvi_gateway_format 0 gwNoTsPayload ≠
      parse_ruuvi_gateway_format 1 gwNoTsPayload := by
  decide

/-- C5 amended: normalization is a pure function of the payload and the
fetch-time clock reading; the passthrough adapter is a function of the
payload alone, and the gateway adapter is independent of the clock as soon
as every device entry carries an integer `timestamp` field — re-running it
on the same such payload at any two clock readings yields structurally
equal snapshots. -/
theorem C5_amended_idempotent (p : Json) (now now2 : Int)
    (entries : List (String × Json))
    (hobj : ((p.index "data").index "tags").as_object = some entries)
    (hts : ∀ e ∈ entries,
      ((e.2.get "timestamp").bind Json.as_i64).isSome = true) :
    parse_ruuvi_gateway_format now p = parse_ruuvi_gateway_format now2 p ∧
    parse_custom_ruuvi_api_format p = parse_custom_ruuvi_api_format p := by
  refine ⟨?_, rfl⟩
  simp only [parse_ruuvi_gateway_format, hobj]
  exact parseEntries_now_indep now now2 entries hts

/-- C5 amended witness: the good payload, whose entry has a timestamp,
normalized at clock readings 0 and 12345. -/
theorem C5_amended_witness :
    ((gwGoodPayload.index "data").index "tags").as_object =
      some [("AA:BB", gwGoodEntry)] ∧
    (∀ e ∈ [("AA:BB", gwGoodEntry)],
      ((e.2.get "timestamp").bind Json.as_i64).isSome = true) ∧
    (parse_ruuvi_gateway_format 0 gwGoodPayload =
      parse_ruuvi_gateway_format 12345 gwGoodPayload ∧
     parse_custom_ruuvi_api_format gwGoodPayload =
      parse_custom_ruuvi_api_format gwGoodPayload) :=
  ⟨rfl, by decide,
   C5_amended_idempotent gwGoodPayload 0 12345 [("AA:BB", gwGoodEntry)]
     rfl (by decide)⟩

/-- C9 counterexample.  The claim says every snapshot produced by any
adapter satisfies `min ≤ current ≤ max`, in particular the passthrough
adapter's output.  On the code the passthrough adapter is a plain
structural decode with no bounds validation: it accepts
`boundsViolatingTagJson` (temperature `min = 10`, `current = 5`,
`max = 0`) and returns it as-is, violating the invariant. -/
theorem C9_counterexample :
    parse_custom_ruuvi_api_format (.arr [boundsViolatingTagJson]) =
      .ok [boundsViolatingTag] ∧
    ¬ (boundsViolatingTag.temperature.min ≤
        boundsViolatingTag.temperature.current) := by
  refine ⟨by decide, by decide⟩

/-- C9 amended: the gateway adapter's output always satisfies the bounds
invariant — indeed `min = max = current` for both metrics of every reading
it produces, hence `min ≤ current ≤ max`; the passthrough adapter performs
no bounds validation, so its output satisfies the invariant only when the
payload itself does. -/
theorem C9_amended_gateway_bounds (now : Int) (p : Json) (tags : List Tag)
    (h : parse_ruuvi_gateway_format now p = .ok tags) :
    ∀ tag ∈ tags,
      tag.temperature.min = tag.temperature.current ∧
      tag.temperature.max = tag.temperature.current ∧
      tag.humidity.min = tag.humidity.current ∧
      tag.humidity.max = tag.humidity.current ∧
      (tag.temperature.min ≤ tag.temperature.current ∧
        tag.temperature.current ≤ tag.temperature.max) ∧
      (tag.humidity.min ≤ tag.humidity.current ∧
        tag.humidity.current ≤ tag.humidity.max) := by
  intro tag htag
  cases hobj : ((p.index "data").index "tags").as_object with
  | none =>
      simp only [parse_ruuvi_gateway_format, hobj] at h
      exact Except.noConfusion h
  | some entries =>
      simp only [parse_ruuvi_gateway_format, hobj] at h
      obtain ⟨mac, td, hp⟩ := parseEntries_mem now entries tags h tag htag
      obtain ⟨h1, h2, h3, h4, -, -⟩ :=
        parseEntry_metric_shape now mac td tag hp
      refine ⟨h1, h2, h3, h4, ⟨le_of_eq h1, le_of_eq h2.symm⟩,
        ⟨le_of_eq h3, le_of_eq h4.symm⟩⟩

/-- C9 amended witness at the good gateway payload. -/
theorem C9_amended_witness :
    parse_ruuvi_gateway_format 0 gwGoodPayload = .ok [gwGoodTag] ∧
    ∀ tag ∈ [gwGoodTag],
      tag.temperature.min = tag.temperature.current ∧
      tag.temperature.max = tag.temperature.current ∧
      tag.humidity.min = tag.humidity.current ∧
      tag.humidity.max = tag.humidity.current ∧
      (tag.temperature.min ≤ tag.temperature.current ∧
        tag.temperature.current ≤ tag.temperature.max) ∧
      (tag.humidity.min ≤ tag.humidity.current ∧
        tag.humidity.current ≤ tag.humidity.max) :=
  ⟨by decide, C9_amended_gateway_bounds 0 gwGoodPayload [gwGoodTag] (by decide)⟩

/-- C10: a gateway device entry whose `temperature` or `humidity` field is
missing or non-numeric is neither skipped nor an error: provided only its
effective timestamp is valid, it still yields a reading in which that
metric's current, min and max are all 0. -/
theorem C10_missing_metric_defaults_zero (now : Int) (mac : String)
    (td : Json) (ts : Int)
    (h : from_timestamp_opt (gw_timestamp td now) = some ts) :
    ∃ tag, parseEntry now mac td = .ok tag ∧
      ((td.get "temperature").bind Json.as_f64 = none →
        tag.temperature = { current := 0, min := 0, max := 0, trend := 0 }) ∧
      ((td.get "humidity").bind Json.as_f64 = none →
        tag.humidity = { current := 0, min := 0, max := 0, trend := 0 }) := by
  refine ⟨_, parseEntry_eq_of_ts now mac td ts h, ?_, ?_⟩
  · intro hnone
    simp [gw_temperature, hnone]
  · intro hnone
    simp [gw_humidity, hnone]

/-- C10 witness: the entry with a non-numeric `temperature`, an absent
`humidity` and timestamp 100 yields a reading with both metrics zeroed. -/
theorem C10_witness :
    from_timestamp_opt (gw_timestamp gwNoMetricEntry 0) = some 100 ∧
    ∃ tag, parseEntry 0 "AA:BB" gwNoMetricEntry = .ok tag ∧
      ((gwNoMetricEntry.get "temperature").bind Json.as_f64 = none →
        tag.temperature = { current := 0, min := 0, max := 0, trend := 0 }) ∧
      ((gwNoMetricEntry.get "humidity").bind Json.as_f64 = none →
        tag.humidity = { current := 0, min := 0, max := 0, trend := 0 }) :=
  ⟨by decide,
   C10_missing_metric_defaults_zero 0 "AA:BB" gwNoMetricEntry 100 (by decide)⟩
